import Mathlib

/-!
Shallow embedding of the entitlement / usage-accounting core of the
omni-ai gateway (Express controllers `aiController.js`, `userController.js`
and the middleware `auth.js`).

External collaborators (the Gemini text endpoint, ClipDrop, Cloudinary,
the Postgres `creations` table and Clerk's per-user metadata store) are
modelled as explicit parameters and explicit state:

  * a capability/provider invocation is an `Except String String` argument
    (`Except.error e` is a provider failure caught by the controller's
    `catch`, `Except.ok content` the generated payload);
  * the Clerk `privateMetadata.free_usage` field and the `creations` table
    are the two components of `SrvState`; a controller returns the updated
    state together with the JSON payload it sends (`Response`).

Each controller body is translated line by line from the source; the
guards, messages and metadata writes are verbatim.
-/

/-- The JSON payload a controller sends back: `{success, content?, message?}`. -/
structure Response where
  success : Bool
  content : Option String
  message : Option String
deriving Repr, DecidableEq

/-- Shorthand for the `{success: true, content}` payload. -/
def Response.ok (content : String) : Response :=
  { success := true, content := some content, message := none }

/-- Shorthand for the `{success: false, message}` payload. -/
def Response.fail (msg : String) : Response :=
  { success := false, content := none, message := some msg }

/-- One row inserted into the `creations` table by a generation controller
(`INSERT INTO creations (user_id, prompt, content, type, publish)`). -/
structure Creation where
  user_id : String
  prompt : String
  content : String
  type : String
  publish : Bool
deriving Repr, DecidableEq

/-- The cross-request state a single user's requests read and write: the
`creations` rows appended so far and the Clerk metadata counter
`privateMetadata.free_usage` (`none` when the key has never been written). -/
structure SrvState where
  creations : List Creation
  metaFreeUsage : Option Nat
deriving Repr, DecidableEq

/-- Denial message of the free-quota guard in `generateArticle` and
`generateBlogTitle` (aiController.js lines 169 and 244). -/
def limitReachedMsg : String :=
  "Free usage limit reached. Upgrade to premium for more requests."

/-- Denial message of the premium-only guard in `generateImage`,
`removeImageBackground`, `removeImageObject` — and also of the quota guard
in `resumeReview` (aiController.js lines 317, 386, 435 and 482). -/
def premiumOnlyMsg : String :=
  "This feature is only available for premium users."

/-- Denial message of the 5MB file-size check in `resumeReview`
(aiController.js line 486). -/
def resumeSizeMsg : String :=
  "Resume file size exceeds 5MB limit."

/-- `aiController.generateArticle` (lines 149-223). `plan` and `free_usage`
come from the auth middleware; `ai` is the Gemini chat-completion call.
Guard: `if (plan !== 'premium' && free_usage >= 10)` return the limit
message; otherwise invoke the provider, append the creation row, and when
`plan !== 'premium'` write `free_usage + 1` back to the metadata store. -/
def generateArticle (st : SrvState) (userId prompt : String) (plan : String)
    (free_usage : Nat) (ai : Except String String) : SrvState × Response :=
  if plan ≠ "premium" ∧ 10 ≤ free_usage then
    (st, Response.fail limitReachedMsg)
  else
    match ai with
    | Except.error e => (st, Response.fail e)
    | Except.ok content =>
      let st1 : SrvState :=
        { st with creations :=
            st.creations ++ [⟨userId, prompt, content, "article", false⟩] }
      let st2 : SrvState :=
        if plan ≠ "premium" then { st1 with metaFreeUsage := some (free_usage + 1) }
        else st1
      (st2, Response.ok content)

/-- `aiController.generateBlogTitle` (lines 229-300): same guard, same
commit of `free_usage + 1`, row type `blog-title`. -/
def generateBlogTitle (st : SrvState) (userId prompt : String) (plan : String)
    (free_usage : Nat) (ai : Except String String) : SrvState × Response :=
  if plan ≠ "premium" ∧ 10 ≤ free_usage then
    (st, Response.fail limitReachedMsg)
  else
    match ai with
    | Except.error e => (st, Response.fail e)
    | Except.ok content =>
      let st1 : SrvState :=
        { st with creations :=
            st.creations ++ [⟨userId, prompt, content, "blog-title", false⟩] }
      let st2 : SrvState :=
        if plan ≠ "premium" then { st1 with metaFreeUsage := some (free_usage + 1) }
        else st1
      (st2, Response.ok content)

/-- `aiController.generateImage` (lines 303-370): premium-only guard
`if (plan !== 'premium')`; on success the ClipDrop/Cloudinary pipeline
(`provider`) yields a `secure_url` inserted with `publish ?? false`.
No usage commit exists in this controller. -/
def generateImage (st : SrvState) (userId prompt : String)
    (publish : Option Bool) (plan : String)
    (provider : Except String String) : SrvState × Response :=
  if plan ≠ "premium" then
    (st, Response.fail premiumOnlyMsg)
  else
    match provider with
    | Except.error e => (st, Response.fail e)
    | Except.ok secure_url =>
      ({ st with creations :=
          st.creations ++ [⟨userId, prompt, secure_url, "image", publish.getD false⟩] },
       Response.ok secure_url)

/-- `aiController.removeImageBackground` (lines 372-418): premium-only
guard, Cloudinary background-removal upload (`provider`), fixed prompt
text, no usage commit. -/
def removeImageBackground (st : SrvState) (userId : String) (plan : String)
    (provider : Except String String) : SrvState × Response :=
  if plan ≠ "premium" then
    (st, Response.fail premiumOnlyMsg)
  else
    match provider with
    | Except.error e => (st, Response.fail e)
    | Except.ok secure_url =>
      ({ st with creations :=
          st.creations ++
            [⟨userId, "Remove background from image", secure_url, "image", false⟩] },
       Response.ok secure_url)

/-- `aiController.removeImageObject` (lines 420-468): premium-only guard,
Cloudinary upload plus `gen_remove` URL transformation (`provider` yields
the final `imageUrl`), no usage commit. -/
def removeImageObject (st : SrvState) (userId object : String) (plan : String)
    (provider : Except String String) : SrvState × Response :=
  if plan ≠ "premium" then
    (st, Response.fail premiumOnlyMsg)
  else
    match provider with
    | Except.error e => (st, Response.fail e)
    | Except.ok imageUrl =>
      ({ st with creations :=
          st.creations ++
            [⟨userId, "Removed " ++ object ++ " from image", imageUrl, "image", false⟩] },
       Response.ok imageUrl)

/-- `aiController.resumeReview` (lines 470-534). Guard
`if (plan !== 'premium' && free_usage >= 10)` returns the premium-only
message (not the limit message); then `if (resume.size > 5 * 1024 * 1024)`
returns the size message; then the pdf text is sent to Gemini (`ai`), the
row is appended, and when `plan !== 'premium'` the commit writes
`free_usage + 3`. -/
def resumeReview (st : SrvState) (userId : String) (plan : String)
    (free_usage : Nat) (resumeSize : Nat)
    (ai : Except String String) : SrvState × Response :=
  if plan ≠ "premium" ∧ 10 ≤ free_usage then
    (st, Response.fail premiumOnlyMsg)
  else if 5 * 1024 * 1024 < resumeSize then
    (st, Response.fail resumeSizeMsg)
  else
    match ai with
    | Except.error e => (st, Response.fail e)
    | Except.ok content =>
      let st1 : SrvState :=
        { st with creations :=
            st.creations ++
              [⟨userId, "Review the uploaded resume", content, "resume-review", false⟩] }
      let st2 : SrvState :=
        if plan ≠ "premium" then { st1 with metaFreeUsage := some (free_usage + 3) }
        else st1
      (st2, Response.ok content)

/-- What the `auth` middleware leaves behind: an optional write of
`free_usage` to Clerk metadata (the `updateUserMetadata` call of its else
branch), and the `req.free_usage` / `req.plan` values handed to the
controller. -/
structure AuthResult where
  metaWrite : Option Nat
  free_usage : Nat
  plan : String
deriving Repr, DecidableEq

/-- JavaScript truthiness of `user.privateMetadata.free_usage`: falsy when
the key is absent (`undefined`) or the number is `0`. -/
def truthyNat : Option Nat → Bool
  | none => false
  | some n => n != 0

/-- `middlewares/auth.js` (lines 3-33).
`if (!hasPremiumPlan && user.privateMetadata.free_usage)` copies the
stored counter onto the request; otherwise (premium plan, or absent/zero
counter) it writes `free_usage: 0` to Clerk metadata and sets
`req.free_usage = 0`. `req.plan` is `'premium'` or `'free'` by
`hasPremiumPlan`. -/
def auth (hasPremiumPlan : Bool) (storedFreeUsage : Option Nat) : AuthResult :=
  if !hasPremiumPlan && truthyNat storedFreeUsage then
    { metaWrite := none
      free_usage := storedFreeUsage.getD 0
      plan := if hasPremiumPlan then "premium" else "free" }
  else
    { metaWrite := some 0
      free_usage := 0
      plan := if hasPremiumPlan then "premium" else "free" }

/-- One full article request as routed (`aiRoutes.js`: `auth` middleware
then `generateArticle`): run `auth` against the stored counter, apply its
metadata write to the state, then run the controller with the `req.plan`
and `req.free_usage` it produced. -/
def articleRequest (hasPremiumPlan : Bool) (st : SrvState)
    (userId prompt : String) (ai : Except String String) : SrvState × Response :=
  let a := auth hasPremiumPlan st.metaFreeUsage
  let st1 : SrvState :=
    match a.metaWrite with
    | some v => { st with metaFreeUsage := some v }
    | none => st
  generateArticle st1 userId prompt a.plan a.free_usage ai

/-- `userController.toggleLikeCreation` operates on one fetched row; the
fields of the row it reads and rewrites. -/
structure CreationRow where
  id : Nat
  likes : List String
deriving Repr, DecidableEq

/-- `userController.toggleLikeCreation` (lines 34-75), per fetched row
(`none` models the `SELECT` returning no row). If `currentLikes` includes
the caller, filter the caller out and report "Creation disliked"; else
append the caller and report "Creation liked"; the updated array is
written back whole. -/
def toggleLikeCreation (creation : Option CreationRow) (userId : String) :
    Option CreationRow × Response :=
  match creation with
  | none => (none, Response.fail "Creation not found")
  | some c =>
    if c.likes.contains userId then
      (some { c with likes := c.likes.filter (fun user => user != userId) },
       { success := true, content := none, message := some "Creation disliked" })
    else
      (some { c with likes := c.likes ++ [userId] },
       { success := true, content := none, message := some "Creation liked" })

/-- The state of a brand-new free user: no creations, no `free_usage`
metadata key yet. -/
def freshState : SrvState := { creations := [], metaFreeUsage := none }

/-- One successful cost-1 article generation by a non-premium user, as a
state transformer (used to iterate the fresh-user scenario). -/
def c3Step (st : SrvState) : SrvState :=
  (articleRequest false st "u1" "p" (Except.ok "content")).1

/-! ## Claim theorems -/

/-- C1. For metered generate requests (article, blog-title) the quota
guard allows the request iff the user is premium or `free_usage < 10`;
a denial carries the limit-reached message; premium users are allowed for
every value of `free_usage`. Allowing is observed as `success = true` on
a successful provider call. -/
theorem quota_gate_allows_iff (st : SrvState) (userId prompt plan : String)
    (free_usage : Nat) (c : String) :
    ((generateArticle st userId prompt plan free_usage (Except.ok c)).2.success = true
        ↔ (plan = "premium" ∨ free_usage < 10))
    ∧ ((generateBlogTitle st userId prompt plan free_usage (Except.ok c)).2.success = true
        ↔ (plan = "premium" ∨ free_usage < 10))
    ∧ (¬(plan = "premium" ∨ free_usage < 10) →
        (generateArticle st userId prompt plan free_usage (Except.ok c)).2
            = Response.fail limitReachedMsg
        ∧ (generateBlogTitle st userId prompt plan free_usage (Except.ok c)).2
            = Response.fail limitReachedMsg) := by
  unfold generateArticle generateBlogTitle
  by_cases hp : plan = "premium"
  · simp [hp, Response.ok]
  · by_cases hf : 10 ≤ free_usage
    · simp [hp, hf, Response.fail, Response.ok, Nat.not_lt.mpr hf]
    · simp [hp, hf, Response.ok, Nat.lt_of_not_le hf]

/-- C1 witness: a free user at the limit is denied with the limit-reached
message. -/
theorem quota_gate_allows_iff_witness :
    (generateArticle freshState "u" "p" "free" 10 (Except.ok "c")).2
        = Response.fail limitReachedMsg :=
  ((quota_gate_allows_iff freshState "u" "p" "free" 10 "c").2.2 (by decide)).1

/-- C2 counterexample: for a premium user with a stored counter of 5, the
`auth` middleware writes `free_usage: 0` back to the metadata store — the
claim that the premium path never writes the counter is false. -/
theorem auth_premium_writes_zero_cex :
    (auth true (some 5)).metaWrite = some 0
    ∧ (auth true (some 5)).metaWrite ≠ none := by
  decide

/-- C2 amended: for every premium request, the `auth` middleware takes its
else branch regardless of the stored counter, writing `free_usage = 0` to
the metadata store and exposing `req.free_usage = 0`. -/
theorem auth_premium_always_resets (stored : Option Nat) :
    auth true stored = { metaWrite := some 0, free_usage := 0, plan := "premium" } := by
  simp [auth]

/-- C3 counterexample: a fresh free user who has completed nine successful
cost-1 article generations holds a stored counter of 9, and the tenth
request is still allowed (it succeeds and is not the limit-reached
denial), contradicting the claim that the tenth request is denied. -/
theorem fresh_user_tenth_allowed_cex :
    (c3Step^[9] freshState).metaFreeUsage = some 9
    ∧ (articleRequest false (c3Step^[9] freshState) "u1" "p" (Except.ok "content")).2.success
        = true
    ∧ (articleRequest false (c3Step^[9] freshState) "u1" "p" (Except.ok "content")).2
        ≠ Response.fail limitReachedMsg := by
  decide

/-- C3 amended: for a fresh non-premium user starting with no counter, the
first TEN cost-1 generations are all allowed, each advancing the stored
counter by exactly 1 (after request k+1 it is k+1), and the ELEVENTH
request is denied with the limit-reached message. -/
theorem fresh_user_eleventh_denied :
    ((List.range 10).all fun k =>
      (articleRequest false (c3Step^[k] freshState) "u1" "p" (Except.ok "content")).2.success
      && ((c3Step^[k + 1] freshState).metaFreeUsage == some (k + 1))) = true
    ∧ (articleRequest false (c3Step^[10] freshState) "u1" "p" (Except.ok "content")).2
        = Response.fail limitReachedMsg := by
  decide

/-- C4 counterexample: a non-premium user at the usage limit who requests
a resume review is denied with the premium-required message, not the
limit-reached message — so quota denials are not uniformly distinguished
from entitlement denials. -/
theorem resume_quota_denial_message_cex :
    (resumeReview freshState "u1" "free" 10 0 (Except.ok "c")).2
        = Response.fail premiumOnlyMsg
    ∧ premiumOnlyMsg ≠ limitReachedMsg := by
  decide

/-- C4 amended: every quota or entitlement denial carries a human-readable
message; article and blog-title quota denials carry the limit-reached
message and the premium-exclusive capabilities carry the premium-required
message, but the resume-review quota denial also carries the
premium-required message, so the two cases are not distinguished there. -/
theorem denial_messages (st : SrvState) (userId prompt object : String)
    (pub : Option Bool) (plan : String) (free_usage resumeSize : Nat)
    (ai : Except String String) (hplan : plan ≠ "premium") :
    (10 ≤ free_usage →
      (generateArticle st userId prompt plan free_usage ai).2
          = Response.fail limitReachedMsg
      ∧ (generateBlogTitle st userId prompt plan free_usage ai).2
          = Response.fail limitReachedMsg
      ∧ (resumeReview st userId plan free_usage resumeSize ai).2
          = Response.fail premiumOnlyMsg)
    ∧ (generateImage st userId prompt pub plan ai).2 = Response.fail premiumOnlyMsg
    ∧ (removeImageBackground st userId plan ai).2 = Response.fail premiumOnlyMsg
    ∧ (removeImageObject st userId object plan ai).2 = Response.fail premiumOnlyMsg := by
  refine ⟨fun hf => ?_, ?_, ?_, ?_⟩ <;>
    simp [generateArticle, generateBlogTitle, resumeReview, generateImage,
      removeImageBackground, removeImageObject, hplan, *]

/-- C4 witness: concrete free user at the limit, article denial message
and resume-review denial message. -/
theorem denial_messages_witness :
    (generateArticle freshState "u" "p" "free" 10 (Except.ok "c")).2
        = Response.fail limitReachedMsg :=
  ((denial_messages freshState "u" "p" "o" none "free" 10 0 (Except.ok "c")
    (by decide)).1 (by decide)).1

/-- C5. Every premium-exclusive capability (image generation, background
removal, object removal) denies a non-premium user with the
premium-required message and leaves the state untouched — no creation row
is appended and the metadata counter is not written, whatever the provider
would have returned. These controllers never read `free_usage` at all
(their Lean translations take no such argument), so the denial is
independent of the counter. -/
theorem premium_exclusive_denies (st : SrvState) (userId prompt object : String)
    (pub : Option Bool) (plan : String) (provider : Except String String)
    (h : plan ≠ "premium") :
    generateImage st userId prompt pub plan provider = (st, Response.fail premiumOnlyMsg)
    ∧ removeImageBackground st userId plan provider = (st, Response.fail premiumOnlyMsg)
    ∧ removeImageObject st userId object plan provider
        = (st, Response.fail premiumOnlyMsg) := by
  simp [generateImage, removeImageBackground, removeImageObject, h]

/-- C5 witness: a free user requesting image generation is denied with the
premium-required message and the state is unchanged. -/
theorem premium_exclusive_denies_witness :
    generateImage freshState "u" "p" none "free" (Except.ok "url")
        = (freshState, Response.fail premiumOnlyMsg) :=
  (premium_exclusive_denies freshState "u" "p" "o" none "free" (Except.ok "url")
    (by decide)).1

/-- C6. When the capability invocation fails (`ProviderError`, modelled as
`Except.error e`), the metered controllers leave the state exactly as it
was — no creation row appended, no usage committed — and the caller
receives `success = false`. This holds for every plan, counter value and
file size. -/
theorem provider_error_no_side_effects (st : SrvState) (userId prompt : String)
    (plan : String) (free_usage resumeSize : Nat) (e : String) :
    (generateArticle st userId prompt plan free_usage (Except.error e)).1 = st
    ∧ (generateArticle st userId prompt plan free_usage (Except.error e)).2.success = false
    ∧ (generateBlogTitle st userId prompt plan free_usage (Except.error e)).1 = st
    ∧ (generateBlogTitle st userId prompt plan free_usage (Except.error e)).2.success = false
    ∧ (resumeReview st userId plan free_usage resumeSize (Except.error e)).1 = st
    ∧ (resumeReview st userId plan free_usage resumeSize (Except.error e)).2.success
        = false := by
  unfold generateArticle generateBlogTitle resumeReview
  split_ifs <;> simp [Response.fail]

/-- C7. The usage-commit step (the `if (plan !== 'premium')` metadata
write at the end of each metered controller) is skipped for premium
requests: a successful generation by a premium user leaves the stored
`free_usage` value unchanged, and so does any number of repeated
successful premium generations. -/
theorem premium_commit_noop (st : SrvState) (userId prompt : String)
    (free_usage resumeSize : Nat) (c : String) (n : Nat) :
    (generateArticle st userId prompt "premium" free_usage (Except.ok c)).1.metaFreeUsage
        = st.metaFreeUsage
    ∧ (generateBlogTitle st userId prompt "premium" free_usage (Except.ok c)).1.metaFreeUsage
        = st.metaFreeUsage
    ∧ (resumeReview st userId "premium" free_usage resumeSize (Except.ok c)).1.metaFreeUsage
        = st.metaFreeUsage
    ∧ ((fun s => (generateArticle s userId prompt "premium" free_usage (Except.ok c)).1)^[n]
          st).metaFreeUsage
        = st.metaFreeUsage := by
  have hstep : ∀ s : SrvState,
      (generateArticle s userId prompt "premium" free_usage (Except.ok c)).1.metaFreeUsage
        = s.metaFreeUsage := by
    intro s
    simp [generateArticle]
  refine ⟨hstep st, by simp [generateBlogTitle], ?_, ?_⟩
  · unfold resumeReview
    split_ifs <;> simp_all
  · induction n generalizing st with
    | zero => rfl
    | succ n ih =>
      rw [Function.iterate_succ_apply]
      rw [ih]
      exact hstep st

/-- C8. Double like-toggle by a user not yet in the likes array: the first
call appends the caller and reports "Creation liked", the second call
filters the caller back out, restoring the row exactly, and reports
"Creation disliked". -/
theorem toggleLike_involution (c : CreationRow) (u : String) (h : u ∉ c.likes) :
    (toggleLikeCreation (some c) u).2.message = some "Creation liked"
    ∧ (toggleLikeCreation (toggleLikeCreation (some c) u).1 u).1 = some c
    ∧ (toggleLikeCreation (toggleLikeCreation (some c) u).1 u).2.message
        = some "Creation disliked" := by
  have hc : c.likes.contains u = false := by
    simpa using h
  have hfilter : (c.likes ++ [u]).filter (fun user => user != u) = c.likes := by
    rw [List.filter_append]
    have h1 : c.likes.filter (fun user => user != u) = c.likes := by
      apply List.filter_eq_self.mpr
      intro a ha
      have hau : a ≠ u := by
        intro he
        exact h (he ▸ ha)
      simpa using hau
    have h2 : [u].filter (fun user => user != u) = [] := by simp
    rw [h1, h2, List.append_nil]
  simp only [toggleLikeCreation, hc]
  simp only [Bool.false_eq_true, if_false]
  have hc2 : (c.likes ++ [u]).contains u = true := by simp
  simp [hc2, hfilter]

/-- C8 witness: toggling twice for user "u1" on a row liked only by "v"
restores the row and the messages flip liked then disliked. -/
theorem toggleLike_involution_witness :
    (toggleLikeCreation (some ⟨1, ["v"]⟩) "u1").2.message = some "Creation liked"
    ∧ (toggleLikeCreation (toggleLikeCreation (some ⟨1, ["v"]⟩) "u1").1 "u1").1
        = some ⟨1, ["v"]⟩
    ∧ (toggleLikeCreation (toggleLikeCreation (some ⟨1, ["v"]⟩) "u1").1 "u1").2.message
        = some "Creation disliked" :=
  toggleLike_involution ⟨1, ["v"]⟩ "u1" (by decide)

/-- C9. The at-most-once membership invariant on `likes` is preserved by
`toggleLikeCreation`: if the fetched row's likes array has no duplicates,
the written-back array has none either (the removal branch filters out
every occurrence of the caller; the addition branch appends the caller
only when absent). -/
theorem toggleLike_preserves_nodup (c : CreationRow) (u : String) (d : CreationRow)
    (h : c.likes.Nodup) :
    (((toggleLikeCreation (some c) u).1).getD d).likes.Nodup := by
  by_cases hm : u ∈ c.likes
  · have hc : c.likes.contains u = true := by simpa using hm
    simp only [toggleLikeCreation, hc, if_true, Option.getD_some]
    exact h.filter _
  · have hc : c.likes.contains u = false := by simpa using hm
    simp only [toggleLikeCreation, hc, Bool.false_eq_true, if_false, Option.getD_some]
    exact h.append (List.nodup_singleton u) (by simpa [List.disjoint_singleton] using hm)

/-- C9 witness: toggling "u1" on a duplicate-free likes array yields a
duplicate-free array. -/
theorem toggleLike_preserves_nodup_witness :
    (((toggleLikeCreation (some ⟨1, ["v", "w"]⟩) "u1").1).getD ⟨0, []⟩).likes.Nodup :=
  toggleLike_preserves_nodup ⟨1, ["v", "w"]⟩ "u1" ⟨0, []⟩ (by decide)

/-- C10. A resume-review request that passes the quota guard but uploads a
file larger than 5MB (5 * 1024 * 1024 bytes) returns the size-limit
failure and has no side effects: the state is returned untouched (no
creation row, no usage commit) for every possible provider outcome, so no
AI invocation is observable. -/
theorem resume_size_limit_no_side_effects (st : SrvState) (userId plan : String)
    (free_usage resumeSize : Nat) (ai : Except String String)
    (hgate : ¬(plan ≠ "premium" ∧ 10 ≤ free_usage))
    (hsize : 5 * 1024 * 1024 < resumeSize) :
    resumeReview st userId plan free_usage resumeSize ai
        = (st, Response.fail resumeSizeMsg) := by
  simp [resumeReview, hgate, hsize]

/-- C10 witness: a premium user uploading a file one byte over 5MB gets
the size-limit failure and an unchanged state. -/
theorem resume_size_limit_no_side_effects_witness :
    resumeReview freshState "u" "premium" 0 5242881 (Except.ok "c")
        = (freshState, Response.fail resumeSizeMsg) :=
  resume_size_limit_no_side_effects freshState "u" "premium" 0 5242881 (Except.ok "c")
    (by decide) (by decide)
